import Mathlib

/-!
Verification development for the VigiSaúde Brasil dashboard
(esgoto-app): a shallow embedding of its API-service cache layer
(src/services/api.js) and of the map component's municipality-layer
state machine, together with proofs of the behavioural properties
claimed for them.

JS strings are modelled as Lean String (or List Char where character
level reasoning is needed), JS numbers as ℚ or Int/Nat, JS objects
used as dictionaries as association lists, and rejected promises as
Except values.

The file is organised as definitions first (each carrying the JS source
it embeds), then the theorems about them.
-/

/-- Association-list lookup, modelling reading a key of a JS object or Map. -/
def assocLookup {κ α : Type} [DecidableEq κ] (k : κ) : List (κ × α) → Option α
  | [] => none
  | kv :: rest => if kv.1 = k then some kv.2 else assocLookup k rest

/-- Remove every binding of a key, modelling a JS delete obj[k] / Map.delete. -/
def assocErase {κ α : Type} [DecidableEq κ] (k : κ) (l : List (κ × α)) : List (κ × α) :=
  l.filter (fun kv => decide (kv.1 ≠ k))

/-- Overwrite-or-add a binding, modelling a JS obj[k] = v / Map.set. -/
def assocSet {κ α : Type} [DecidableEq κ] (k : κ) (v : α) (l : List (κ × α)) : List (κ × α) :=
  (k, v) :: assocErase k l

/-!
## Alert Classifier (src/services/api.js, getAlertColorHex)

JS source:
    export function getAlertColorHex(nivel) {
        const colors = { 1: '#22c55e', 2: '#eab308', 3: '#f97316', 4: '#ef4444' };
        return colors[nivel] || colors[1];
    }
The argument nivel is a JS number, null or undefined; the object lookup
colors[nivel] hits a binding exactly when nivel is numerically one of
1, 2, 3, 4 (fractional, negative, zero, null and undefined all miss and
fall through to colors[1]).  Embedded with nivel : Option ℚ, where none
stands for null/undefined.
-/

def getAlertColorHex (nivel : Option ℚ) : String :=
  if nivel = some 1 then "#22c55e"
  else if nivel = some 2 then "#eab308"
  else if nivel = some 3 then "#f97316"
  else if nivel = some 4 then "#ef4444"
  else "#22c55e"

/-!
## Sanitation opacity (map component, getSanitationOpacity)

JS source:
    function getSanitationOpacity(percent) {
        return 0.35 + (percent / 100) * 0.4; // range: 0.35 – 0.75
    }
-/

def getSanitationOpacity (percent : ℚ) : ℚ :=
  0.35 + (percent / 100) * 0.4

/-!
## Request Cache (src/services/api.js, cachedFetch)

JS source:
    const cache = new Map();
    async function cachedFetch(key, fetcher) {
        if (cache.has(key)) return cache.get(key);
        const data = await fetcher();
        cache.set(key, data);
        return data;
    }
Embedded as a pure transformer of the cache map; the awaited fetcher is
an Except Unit value (error = rejected promise: the await rethrows and
cache.set is never reached).  The outcome also records whether the
fetcher was invoked, so that caching behaviour is observable.
-/

structure FetchOutcome (α : Type) where
  result : Except Unit α
  cache : List (String × α)
  invoked : Bool

def cachedFetch {α : Type} (cache : List (String × α)) (key : String)
    (fetcher : Except Unit α) : FetchOutcome α :=
  match assocLookup key cache with
  | some v => ⟨Except.ok v, cache, false⟩
  | none =>
    match fetcher with
    | Except.ok data => ⟨Except.ok data, assocSet key data cache, true⟩
    | Except.error e => ⟨Except.error e, cache, true⟩

/-!
## Cache keys (src/services/api.js, cacheKey)

JS source:
    function cacheKey(...args) {
        return args.join('|');
    }
Array.prototype.join concatenates the stringified components with the
one-character separator.  Strings are modelled at character level as
List Char, so that separator occurrences inside components can be
reasoned about.
-/

def joinSep (sep : Char) : List (List Char) → List Char
  | [] => []
  | [a] => a
  | a :: b :: rest => a ++ sep :: joinSep sep (b :: rest)

def cacheKey (args : List (List Char)) : List Char :=
  joinSep '|' args

/-!
## Viewport-to-Region Resolver (map component, getVisibleUFs)

JS source:
    const UF_IDS = [11, 12, ..., 53];
    function getVisibleUFs(bounds) {
        if (!geoLayer) return [];
        const visible = [];
        geoLayer.eachLayer(layer => {
            if (layer.feature && layer.getBounds) {
                try {
                    const layerBounds = layer.getBounds();
                    if (bounds.intersects(layerBounds)) {
                        const ufId = Number(layer.feature.properties.codarea);
                        if (UF_IDS.includes(ufId)) visible.push(ufId);
                    }
                } catch { /* skip */ }
            }
        });
        return visible;
    }
A drawn sublayer is modelled with an optional feature (none = missing
feature data), a flag for the presence of the getBounds method, and an
Except-valued bounds computation (error = getBounds threw).  Leaflet's
LatLngBounds.intersects tests closed-interval overlap on both axes.
-/

structure LatLngBounds where
  south : ℚ
  north : ℚ
  west : ℚ
  east : ℚ

def boundsIntersect (a b : LatLngBounds) : Bool :=
  decide (b.south ≤ a.north) && decide (a.south ≤ b.north) &&
  decide (b.west ≤ a.east) && decide (a.west ≤ b.east)

structure MapFeature where
  codarea : Int

structure MapSublayer where
  feature : Option MapFeature
  hasGetBounds : Bool
  boundsResult : Except Unit LatLngBounds

def UF_IDS : List Int :=
  [11, 12, 13, 14, 15, 16, 17, 21, 22, 23, 24, 25, 26, 27, 28, 29,
   31, 32, 33, 35, 41, 42, 43, 50, 51, 52, 53]

def visitLayer (bounds : LatLngBounds) (visible : List Int) (l : MapSublayer) : List Int :=
  match l.feature with
  | none => visible
  | some f =>
    if l.hasGetBounds then
      match l.boundsResult with
      | Except.error _ => visible
      | Except.ok layerBounds =>
        if boundsIntersect bounds layerBounds then
          if f.codarea ∈ UF_IDS then visible ++ [f.codarea] else visible
        else visible
    else visible

def getVisibleUFs (bounds : LatLngBounds) (layers : List MapSublayer) : List Int :=
  layers.foldl (visitLayer bounds) []

/-!
## National overview (src/services/api.js, fetchNationalOverview)

JS source (abridged):
    export async function fetchNationalOverview(disease = 'dengue') {
        ...
        const capitals = [ { name: 'São Paulo', geocode: 3550308, uf: 'SP' }, ... ];
        ...
        const results = await Promise.allSettled(
            capitals.map(async (cap) => {
                try {
                    const data = await fetchDiseaseData(cap.geocode, disease, ...);
                    const latest = data.length > 0 ? data[data.length - 1] : null;
                    return { ...cap, data, latest };
                } catch {
                    return { ...cap, data: [], latest: null };
                }
            })
        );
        return results.filter(r => r.status === 'fulfilled').map(r => r.value);
    }
Each mapped promise catches every rejection of its disease fetch and
always fulfils, so every allSettled slot is fulfilled; fulfilled slots
are modelled as Except.ok values and the status filter as a filterMap.
The per-capital disease fetch is abstracted by a function from geocode
to Except Unit (List α), α being the alert-record type (the claims do
not inspect record contents).
-/

structure Capital where
  name : String
  geocode : Nat
  uf : String
deriving DecidableEq

def capitals : List Capital :=
  [⟨"São Paulo", 3550308, "SP"⟩,
   ⟨"Rio de Janeiro", 3304557, "RJ"⟩,
   ⟨"Belo Horizonte", 3106200, "MG"⟩,
   ⟨"Salvador", 2927408, "BA"⟩,
   ⟨"Brasília", 5300108, "DF"⟩,
   ⟨"Fortaleza", 2304400, "CE"⟩,
   ⟨"Manaus", 1302603, "AM"⟩,
   ⟨"Curitiba", 4106902, "PR"⟩,
   ⟨"Recife", 2611606, "PE"⟩,
   ⟨"Goiânia", 5208707, "GO"⟩,
   ⟨"Belém", 1501402, "PA"⟩,
   ⟨"Porto Alegre", 4314902, "RS"⟩,
   ⟨"São Luís", 2111300, "MA"⟩,
   ⟨"Maceió", 2704302, "AL"⟩,
   ⟨"Campo Grande", 5002704, "MS"⟩,
   ⟨"Natal", 2408102, "RN"⟩,
   ⟨"Teresina", 2211001, "PI"⟩,
   ⟨"João Pessoa", 2507507, "PB"⟩,
   ⟨"Aracaju", 2800308, "SE"⟩,
   ⟨"Cuiabá", 5103403, "MT"⟩,
   ⟨"Florianópolis", 4205407, "SC"⟩,
   ⟨"Vitória", 3205309, "ES"⟩,
   ⟨"Porto Velho", 1100205, "RO"⟩,
   ⟨"Macapá", 1600303, "AP"⟩,
   ⟨"Rio Branco", 1200401, "AC"⟩,
   ⟨"Boa Vista", 1400100, "RR"⟩,
   ⟨"Palmas", 1721000, "TO"⟩]

structure OverviewEntry (α : Type) where
  capital : Capital
  data : List α
  latest : Option α

/-- The body of the per-capital mapped promise: on success keep the
series and its last element (null when the series is empty), on any
failure fall back to an empty series and a null latest. -/
def overviewEntry {α : Type} (cap : Capital) (res : Except Unit (List α)) : OverviewEntry α :=
  match res with
  | Except.ok data =>
    ⟨cap, data, if 0 < data.length then data[data.length - 1]? else none⟩
  | Except.error _ => ⟨cap, [], none⟩

def fetchNationalOverview {α : Type} (fetchResult : Nat → Except Unit (List α)) :
    List (OverviewEntry α) :=
  ((capitals.map (fun cap =>
      (Except.ok (overviewEntry cap (fetchResult cap.geocode)) :
        Except Unit (OverviewEntry α)))).filterMap
    (fun r => match r with | Except.ok v => some v | Except.error _ => none))

/-!
## Municipality Layer Manager (map component)

JS source (abridged; module-level state):
    const MUNICIPIO_ZOOM_THRESHOLD = 6;
    const loadedMunicipioLayers = {};  // { ufId: L.geoJSON layer }
    const loadingStates = new Set();   // UF IDs currently being fetched
    const municipioAlertCache = {};    // { ufId: { geocode: alertData } }
    let currentDisease = 'dengue';

    function handleZoomChange() {
        const zoom = map.getZoom();
        if (zoom >= MUNICIPIO_ZOOM_THRESHOLD) {
            const visibleUFs = getVisibleUFs(map.getBounds());
            visibleUFs.forEach(ufId => loadMunicipioLayer(ufId));
        } else {
            removeMunicipioLayers();
        }
    }

    async function loadMunicipioLayer(ufId) {
        if (loadedMunicipioLayers[ufId] || loadingStates.has(ufId)) return;
        if (!MAJOR_CITIES_BY_UF[ufId]) return;
        loadingStates.add(ufId);
        try {
            const [geojson, alertMap] = await Promise.all([
                fetchStateGeoJSON(ufId),
                fetchBulkMunicipioAlerts(MAJOR_CITIES_BY_UF[ufId], currentDisease),
            ]);
            municipioAlertCache[ufId] = alertMap;
            const municipioLayer = L.geoJSON(geojson, { style: ... alertMap ... });
            municipioLayer.addTo(map);
            loadedMunicipioLayers[ufId] = municipioLayer;
        } catch (err) {
            console.error(...);
        } finally {
            loadingStates.delete(ufId);
        }
    }

    function removeMunicipioLayers() {
        for (const ufId of Object.keys(loadedMunicipioLayers)) {
            map.removeLayer(loadedMunicipioLayers[ufId]);
            delete loadedMunicipioLayers[ufId];
        }
    }

    export function setMapDisease(disease) {
        currentDisease = disease;
        for (const ufId of Object.keys(loadedMunicipioLayers)) {
            map.removeLayer(loadedMunicipioLayers[ufId]);
            delete loadedMunicipioLayers[ufId];
            delete municipioAlertCache[ufId];
        }
        if (map && map.getZoom() >= MUNICIPIO_ZOOM_THRESHOLD) handleZoomChange();
    }

The embedding is a small-step event system whose atomic steps are the
synchronous event-loop turns of this code: the synchronous prefix of
loadMunicipioLayer up to its await (which issues a fetch tagged with
the value currentDisease has at issue time), the continuation that runs
when that fetch settles, one viewport-change evaluation (zoomend or
moveend), and one disease switch.  A loaded layer is represented by the
disease whose bulk alert data styled it, and an alert-cache entry
likewise.  MAJOR_CITIES_BY_UF itself is not among the sources here
(only its use sites are), so the curated table is abstracted to a
membership predicate majorCities carried as a parameter of every
transition; no claim depends on its contents.
-/

def MUNICIPIO_ZOOM_THRESHOLD : Int := 6

structure MapState where
  currentDisease : String
  zoom : Int
  loadedMunicipioLayers : List (Nat × String)
  loadingStates : List Nat
  municipioAlertCache : List (Nat × String)
  pending : List (Nat × String)
deriving DecidableEq

/-- The synchronous prefix of loadMunicipioLayer: return at once when
the unit is loaded, loading, or absent from the curated table;
otherwise add it to the loading set and issue the paired fetches,
tagged with the disease current at issue time. -/
def loadMunicipioLayerStart (majorCities : Nat → Bool) (s : MapState) (ufId : Nat) : MapState :=
  if (assocLookup ufId s.loadedMunicipioLayers).isSome ∨ ufId ∈ s.loadingStates then s
  else if ¬ majorCities ufId then s
  else { s with loadingStates := ufId :: s.loadingStates,
                pending := s.pending ++ [(ufId, s.currentDisease)] }

/-- The continuation of loadMunicipioLayer when its fetch settles: on
success write the alert-cache entry and install the layer styled from
the issue-time disease data; in either case the finally block removes
the unit from the loading set.  All of this runs in one event-loop
turn. -/
def loadMunicipioLayerComplete (p : Nat × String) (ok : Bool) (s : MapState) : MapState :=
  if ok then
    { s with municipioAlertCache := assocSet p.1 p.2 s.municipioAlertCache,
             loadedMunicipioLayers := assocSet p.1 p.2 s.loadedMunicipioLayers,
             loadingStates := s.loadingStates.filter (fun uf => decide (uf ≠ p.1)),
             pending := s.pending.erase p }
  else
    { s with loadingStates := s.loadingStates.filter (fun uf => decide (uf ≠ p.1)),
             pending := s.pending.erase p }

/-- Zoom-out teardown: every loaded layer is removed from the map and
deleted from the table; the alert cache is not touched here. -/
def removeMunicipioLayers (s : MapState) : MapState :=
  { s with loadedMunicipioLayers := [] }

/-- One zoomend/moveend evaluation, over the units currently visible. -/
def handleZoomChange (majorCities : Nat → Bool) (visible : List Nat) (s : MapState) : MapState :=
  if MUNICIPIO_ZOOM_THRESHOLD ≤ s.zoom then
    visible.foldl (loadMunicipioLayerStart majorCities) s
  else removeMunicipioLayers s

/-- The synchronous loop of setMapDisease: set the current disease and,
for each unit with a loaded layer, remove that layer and delete the
unit's alert-cache entry (cache entries of units without a loaded layer
are kept). -/
def clearForDisease (disease : String) (s : MapState) : MapState :=
  { s with currentDisease := disease,
           municipioAlertCache := s.municipioAlertCache.filter
             (fun kv => decide ((assocLookup kv.1 s.loadedMunicipioLayers) = none)),
           loadedMunicipioLayers := [] }

/-- Disease switch: tear down as above, then re-evaluate visibility if
still at qualifying zoom. -/
def setMapDisease (majorCities : Nat → Bool) (disease : String) (visible : List Nat)
    (s : MapState) : MapState :=
  if MUNICIPIO_ZOOM_THRESHOLD ≤ (clearForDisease disease s).zoom then
    handleZoomChange majorCities visible (clearForDisease disease s)
  else clearForDisease disease s

/-- The module-level state right after initMap: dengue selected, zoom 4,
nothing loaded, loading or pending. -/
def initMapState : MapState :=
  { currentDisease := "dengue", zoom := 4,
    loadedMunicipioLayers := [], loadingStates := [],
    municipioAlertCache := [], pending := [] }

/-- One event-loop turn of the map component: a viewport change (the
zoom/pan gesture ends at zoom z with the given units visible), the
settling of one issued fetch (out of order, success or failure), or a
disease switch. -/
inductive Step (majorCities : Nat → Bool) : MapState → MapState → Prop
  | viewport (s : MapState) (z : Int) (visible : List Nat) :
      Step majorCities s (handleZoomChange majorCities visible { s with zoom := z })
  | settle (s : MapState) (p : Nat × String) (ok : Bool) (hp : p ∈ s.pending) :
      Step majorCities s (loadMunicipioLayerComplete p ok s)
  | disease (s : MapState) (d : String) (visible : List Nat) :
      Step majorCities s (setMapDisease majorCities d visible s)

/-- States reachable from the initial state by event-loop turns; these
are exactly the observable points between turns. -/
inductive Reachable (majorCities : Nat → Bool) : MapState → Prop
  | init : Reachable majorCities initMapState
  | step {s t : MapState} : Reachable majorCities s → Step majorCities s t →
      Reachable majorCities t

/-- A unit needs no fetch: loaded, loading, or outside the curated table. -/
def UnitSettled (majorCities : Nat → Bool) (s : MapState) (uf : Nat) : Prop :=
  (assocLookup uf s.loadedMunicipioLayers).isSome ∨ uf ∈ s.loadingStates ∨
    majorCities uf = false

/-- The disjointness invariant of §3 of the spec: no identifier in the
loading set has a loaded layer. -/
def DisjointInv (s : MapState) : Prop :=
  ∀ uf ∈ s.loadingStates, assocLookup uf s.loadedMunicipioLayers = none

/-!
## Theorems
-/

theorem assocLookup_set_self {κ α : Type} [DecidableEq κ] (k : κ) (v : α) (l : List (κ × α)) :
    assocLookup k (assocSet k v l) = some v := by
  simp [assocSet, assocLookup]

theorem assocLookup_erase {κ α : Type} [DecidableEq κ] (k k' : κ) (l : List (κ × α))
    (h : k' ≠ k) : assocLookup k' (assocErase k l) = assocLookup k' l := by
  induction l with
  | nil => rfl
  | cons kv rest ih =>
    by_cases hk : kv.1 = k
    · have hne : kv.1 ≠ k' := fun hc => h (hc.symm.trans hk)
      simp only [assocErase, List.filter_cons] at *
      simp only [hk, ne_eq, not_true_eq_false, decide_False, Bool.false_eq_true, if_false]
      rw [ih]
      simp [assocLookup, hne]
    · simp only [assocErase, List.filter_cons] at *
      simp only [ne_eq, hk, not_false_eq_true, decide_True, if_true]
      simp only [assocLookup]
      rw [ih]

theorem assocLookup_set_ne {κ α : Type} [DecidableEq κ] (k k' : κ) (v : α) (l : List (κ × α))
    (h : k' ≠ k) : assocLookup k' (assocSet k v l) = assocLookup k' l := by
  have hne : ¬ ((k, v).1 = k') := fun hc => h hc.symm
  rw [assocSet]
  simp only [assocLookup]
  rw [if_neg hne]
  exact assocLookup_erase k k' l h

/-- C7: the alert colour function returns green for level 1, yellow for 2,
orange for 3, red for 4, and the level-1 green for every other input,
including null/undefined (none), 0, negative and fractional levels. -/
theorem getAlertColorHex_spec :
    getAlertColorHex (some 1) = "#22c55e" ∧
    getAlertColorHex (some 2) = "#eab308" ∧
    getAlertColorHex (some 3) = "#f97316" ∧
    getAlertColorHex (some 4) = "#ef4444" ∧
    (∀ nivel : Option ℚ, nivel ≠ some 1 → nivel ≠ some 2 → nivel ≠ some 3 →
      nivel ≠ some 4 → getAlertColorHex nivel = "#22c55e") := by
  refine ⟨rfl, rfl, rfl, rfl, ?_⟩
  intro nivel h1 h2 h3 h4
  simp [getAlertColorHex, h1, h2, h3, h4]

/-- Witness for C7: the default branch at the concrete out-of-range
inputs none (null/undefined), 0, -1 and 5/2. -/
theorem getAlertColorHex_spec_witness :
    getAlertColorHex none = "#22c55e" ∧
    getAlertColorHex (some 0) = "#22c55e" ∧
    getAlertColorHex (some (-1)) = "#22c55e" ∧
    getAlertColorHex (some (5/2)) = "#22c55e" :=
  ⟨getAlertColorHex_spec.2.2.2.2 none (by decide) (by decide) (by decide) (by decide),
   getAlertColorHex_spec.2.2.2.2 (some 0) (by decide) (by decide) (by decide) (by decide),
   getAlertColorHex_spec.2.2.2.2 (some (-1)) (by decide) (by decide) (by decide) (by decide),
   getAlertColorHex_spec.2.2.2.2 (some (5/2)) (by norm_num) (by norm_num) (by norm_num)
     (by norm_num)⟩

/-- C8: on [0,100] the sanitation opacity is monotonically non-decreasing,
bounded in [0.35, 0.75], and takes the exact values 0.35 at 0 and 0.75
at 100. -/
theorem getSanitationOpacity_spec :
    (∀ p q : ℚ, 0 ≤ p → p ≤ q → q ≤ 100 →
      getSanitationOpacity p ≤ getSanitationOpacity q) ∧
    (∀ p : ℚ, 0 ≤ p → p ≤ 100 →
      (0.35 : ℚ) ≤ getSanitationOpacity p ∧ getSanitationOpacity p ≤ 0.75) ∧
    getSanitationOpacity 0 = 0.35 ∧
    getSanitationOpacity 100 = 0.75 := by
  refine ⟨?_, ?_, by norm_num [getSanitationOpacity], by norm_num [getSanitationOpacity]⟩
  · intro p q _ hpq _
    simp only [getSanitationOpacity]
    have h04 : (0 : ℚ) < 0.4 := by norm_num
    nlinarith
  · intro p hp0 hp100
    simp only [getSanitationOpacity]
    constructor <;> nlinarith

/-- Witness for C8: monotonicity instantiated at 25 ≤ 75 and the bounds
at 50, with concrete evaluation. -/
theorem getSanitationOpacity_spec_witness :
    getSanitationOpacity 25 ≤ getSanitationOpacity 75 ∧
    (0.35 : ℚ) ≤ getSanitationOpacity 50 ∧ getSanitationOpacity 50 ≤ 0.75 :=
  ⟨getSanitationOpacity_spec.1 25 75 (by norm_num) (by norm_num) (by norm_num),
   (getSanitationOpacity_spec.2.1 50 (by norm_num) (by norm_num)).1,
   (getSanitationOpacity_spec.2.1 50 (by norm_num) (by norm_num)).2⟩

/-- C5: a failing producer leaves no entry behind (the cache is returned
unchanged) and the next call with the same key invokes the producer
again; a key whose producer previously resolved is answered from the
cache with the stored result, without invoking the producer, and the
stored entry survives every later cachedFetch call on any key. -/
theorem cachedFetch_spec {α : Type} :
    (∀ (c : List (String × α)) (key : String) (f : Except Unit α),
      assocLookup key c = none →
      cachedFetch c key (Except.error ()) = ⟨Except.error (), c, true⟩ ∧
      (cachedFetch (cachedFetch c key (Except.error ())).cache key f).invoked = true) ∧
    (∀ (c : List (String × α)) (key : String) (v : α) (f : Except Unit α),
      assocLookup key c = some v →
      cachedFetch c key f = ⟨Except.ok v, c, false⟩) ∧
    (∀ (c : List (String × α)) (key key' : String) (v : α) (f : Except Unit α),
      assocLookup key c = some v →
      assocLookup key (cachedFetch c key' f).cache = some v) := by
  refine ⟨?_, ?_, ?_⟩
  · intro c key f hnone
    have hfail : cachedFetch c key (Except.error ()) = ⟨Except.error (), c, true⟩ := by
      simp [cachedFetch, hnone]
    refine ⟨hfail, ?_⟩
    rw [hfail]
    cases f <;> simp [cachedFetch, hnone]
  · intro c key v f hsome
    simp [cachedFetch, hsome]
  · intro c key key' v f hsome
    by_cases hk : key = key'
    · subst hk
      simp [cachedFetch, hsome]
    · cases hlk : assocLookup key' c with
      | some w => simp [cachedFetch, hlk, hsome]
      | none =>
        cases f with
        | error e => simp [cachedFetch, hlk, hsome]
        | ok data =>
          simp only [cachedFetch, hlk]
          rw [assocLookup_set_ne key' key data c hk]
          exact hsome

/-- Witness for C5, on a concrete session: a failed fetch for the states
list caches nothing and is retried; after a successful fetch the entry
is served from the cache and survives a later call for another key. -/
theorem cachedFetch_spec_witness :
    (cachedFetch ([] : List (String × Nat)) "states" (Except.error ()) =
      ⟨Except.error (), [], true⟩ ∧
     (cachedFetch (cachedFetch ([] : List (String × Nat)) "states"
        (Except.error ())).cache "states" (Except.ok 7)).invoked = true) ∧
    cachedFetch [("states", 7)] "states" (Except.ok 99) = ⟨Except.ok 7, [("states", 7)], false⟩ ∧
    assocLookup "states" (cachedFetch [("states", 7)] "brazil-geo" (Except.ok 3)).cache =
      some 7 :=
  ⟨cachedFetch_spec.1 [] "states" (Except.ok 7) rfl,
   cachedFetch_spec.2.1 [("states", 7)] "states" 7 (Except.ok 99) rfl,
   cachedFetch_spec.2.2 [("states", 7)] "states" "brazil-geo" 7 (Except.ok 3) rfl⟩

theorem joinSep_firstSep (sep : Char) :
    ∀ (a b u v : List Char), sep ∉ a → sep ∉ b →
      a ++ sep :: u = b ++ sep :: v → a = b ∧ u = v := by
  intro a
  induction a with
  | nil =>
    intro b u v _ hb heq
    cases b with
    | nil => simpa using heq
    | cons c b' =>
      simp only [List.nil_append, List.cons_append, List.cons.injEq] at heq
      obtain ⟨h1, _⟩ := heq
      subst h1
      exact absurd (List.mem_cons_self _ _) hb
  | cons c a' ih =>
    intro b u v ha hb heq
    cases b with
    | nil =>
      simp only [List.cons_append, List.nil_append, List.cons.injEq] at heq
      obtain ⟨h1, _⟩ := heq
      subst h1
      exact absurd (List.mem_cons_self _ _) ha
    | cons d b' =>
      simp only [List.cons_append, List.cons.injEq] at heq
      obtain ⟨h1, h2⟩ := heq
      subst h1
      have ha' : sep ∉ a' := fun hm => ha (List.mem_cons_of_mem _ hm)
      have hb' : sep ∉ b' := fun hm => hb (List.mem_cons_of_mem _ hm)
      obtain ⟨e1, e2⟩ := ih b' u v ha' hb' h2
      exact ⟨by rw [e1], e2⟩

theorem joinSep_inj (sep : Char) :
    ∀ (xs ys : List (List Char)), xs ≠ [] → ys ≠ [] →
      (∀ x ∈ xs, sep ∉ x) → (∀ y ∈ ys, sep ∉ y) →
      (joinSep sep xs = joinSep sep ys ↔ xs = ys) := by
  intro xs
  induction xs with
  | nil => intro ys h _ _ _; exact absurd rfl h
  | cons x xs' ih =>
    intro ys _ hys hxmem hymem
    constructor
    · intro heq
      cases ys with
      | nil => exact absurd rfl hys
      | cons y ys' =>
        cases xs' with
        | nil =>
          cases ys' with
          | nil =>
            simp only [joinSep] at heq
            rw [heq]
          | cons y₂ ys'' =>
            exfalso
            simp only [joinSep] at heq
            have hmem : sep ∈ x := by
              rw [heq]
              exact List.mem_append_right _ (List.mem_cons_self _ _)
            exact hxmem x (List.mem_cons_self _ _) hmem
        | cons x₂ xs'' =>
          cases ys' with
          | nil =>
            exfalso
            simp only [joinSep] at heq
            have hmem : sep ∈ y := by
              rw [← heq]
              exact List.mem_append_right _ (List.mem_cons_self _ _)
            exact hymem y (List.mem_cons_self _ _) hmem
          | cons y₂ ys'' =>
            simp only [joinSep] at heq
            have hx : sep ∉ x := hxmem x (List.mem_cons_self _ _)
            have hy : sep ∉ y := hymem y (List.mem_cons_self _ _)
            obtain ⟨e1, e2⟩ := joinSep_firstSep sep x y _ _ hx hy heq
            have hxmem' : ∀ z ∈ (x₂ :: xs''), sep ∉ z :=
              fun z hz => hxmem z (List.mem_cons_of_mem _ hz)
            have hymem' : ∀ z ∈ (y₂ :: ys''), sep ∉ z :=
              fun z hz => hymem z (List.mem_cons_of_mem _ hz)
            have e3 := (ih (y₂ :: ys'') (List.cons_ne_nil _ _) (List.cons_ne_nil _ _)
              hxmem' hymem').mp e2
            rw [e1, e3]
    · intro h
      rw [h]

/-- C6 counterexample: the cache-key constructor is not injective on
component sequences: the single component "a|b" and the component pair
"a", "b" are different sequences but produce the same key. -/
theorem cacheKey_collision :
    cacheKey [['a', '|', 'b']] = cacheKey [['a'], ['b']] ∧
    ([['a', '|', 'b']] : List (List Char)) ≠ [['a'], ['b']] := by
  exact ⟨rfl, by decide⟩

/-- C6 (amended): for nonempty component sequences none of whose
components contains the delimiter, two calls produce the same key iff
the component sequences are equal; the right-to-left direction holds
unconditionally. -/
theorem cacheKey_eq_iff :
    (∀ (xs ys : List (List Char)), xs ≠ [] → ys ≠ [] →
      (∀ x ∈ xs, ('|' : Char) ∉ x) → (∀ y ∈ ys, ('|' : Char) ∉ y) →
      (cacheKey xs = cacheKey ys ↔ xs = ys)) ∧
    (∀ (xs ys : List (List Char)), xs = ys → cacheKey xs = cacheKey ys) := by
  constructor
  · intro xs ys hxs hys hx hy
    simpa [cacheKey] using joinSep_inj '|' xs ys hxs hys hx hy
  · intro xs ys h
    rw [h]

/-- Witness for C6's amended theorem: the keys for two different
single-digit component pairs differ, and equal component sequences give
equal keys, at concrete inputs. -/
theorem cacheKey_eq_iff_witness :
    (cacheKey [['d'], ['1']] = cacheKey [['d'], ['2']] ↔
      ([['d'], ['1']] : List (List Char)) = [['d'], ['2']]) ∧
    cacheKey [['d'], ['1']] = cacheKey [['d'], ['1']] :=
  ⟨cacheKey_eq_iff.1 [['d'], ['1']] [['d'], ['2']] (by decide) (by decide)
      (by decide) (by decide),
   cacheKey_eq_iff.2 [['d'], ['1']] [['d'], ['1']] rfl⟩

theorem mem_visitLayer (bounds : LatLngBounds) (acc : List Int) (l : MapSublayer) (uf : Int)
    (h : uf ∈ visitLayer bounds acc l) :
    uf ∈ acc ∨ (uf ∈ UF_IDS ∧ ∃ f, l.feature = some f ∧ f.codarea = uf ∧
      l.hasGetBounds = true ∧ ∃ lb, l.boundsResult = Except.ok lb ∧
      boundsIntersect bounds lb = true) := by
  unfold visitLayer at h
  split at h
  · exact Or.inl h
  · rename_i f hf
    split at h
    · rename_i hgb
      split at h
      · exact Or.inl h
      · rename_i lb hbr
        split at h
        · rename_i hint
          split at h
          · rename_i hmem
            rcases List.mem_append.mp h with hacc | hone
            · exact Or.inl hacc
            · have huf : uf = f.codarea := List.mem_singleton.mp hone
              subst huf
              exact Or.inr ⟨hmem, f, hf, rfl, hgb, lb, hbr, hint⟩
          · exact Or.inl h
        · exact Or.inl h
    · exact Or.inl h

theorem mem_foldl_visitLayer (bounds : LatLngBounds) :
    ∀ (layers : List MapSublayer) (acc : List Int) (uf : Int),
      uf ∈ layers.foldl (visitLayer bounds) acc →
      uf ∈ acc ∨ (uf ∈ UF_IDS ∧ ∃ l ∈ layers, ∃ f, l.feature = some f ∧ f.codarea = uf ∧
        l.hasGetBounds = true ∧ ∃ lb, l.boundsResult = Except.ok lb ∧
        boundsIntersect bounds lb = true) := by
  intro layers
  induction layers with
  | nil =>
    intro acc uf h
    exact Or.inl h
  | cons l rest ih =>
    intro acc uf h
    rcases ih (visitLayer bounds acc l) uf h with hstep | ⟨hin, l', hl', rest'⟩
    · rcases mem_visitLayer bounds acc l uf hstep with hacc | ⟨hin, f, hrest⟩
      · exact Or.inl hacc
      · exact Or.inr ⟨hin, l, List.mem_cons_self _ _, f, hrest⟩
    · exact Or.inr ⟨hin, l', List.mem_cons_of_mem _ hl', rest'⟩

/-- C9: every identifier returned by the visible-units resolver belongs to
the fixed 27-code national enumeration and comes from a drawn feature
whose successfully computed bounding box intersects the viewport; a
sublayer with missing feature data, a missing getBounds method, or a
throwing getBounds contributes nothing (it is skipped, not an error). -/
theorem getVisibleUFs_spec :
    (∀ (bounds : LatLngBounds) (layers : List MapSublayer) (uf : Int),
      uf ∈ getVisibleUFs bounds layers →
      uf ∈ UF_IDS ∧ ∃ l ∈ layers, ∃ f, l.feature = some f ∧ f.codarea = uf ∧
        l.hasGetBounds = true ∧ ∃ lb, l.boundsResult = Except.ok lb ∧
        boundsIntersect bounds lb = true) ∧
    (∀ (bounds : LatLngBounds) (layers : List MapSublayer) (l : MapSublayer),
      l.feature = none ∨ l.hasGetBounds = false ∨ (∃ e, l.boundsResult = Except.error e) →
      getVisibleUFs bounds (l :: layers) = getVisibleUFs bounds layers) := by
  constructor
  · intro bounds layers uf h
    rcases mem_foldl_visitLayer bounds layers [] uf h with hnil | hfound
    · exact absurd hnil (List.not_mem_nil uf)
    · exact hfound
  · intro bounds layers l hskip
    have hstep : visitLayer bounds [] l = [] := by
      unfold visitLayer
      split
      · rfl
      · rename_i f hf
        split
        · rename_i hgb
          rcases hskip with hf2 | hgb2 | ⟨e, hbr⟩
          · rw [hf] at hf2
            simp at hf2
          · rw [hgb] at hgb2
            simp at hgb2
          · split
            · rfl
            · rename_i lb hbr2
              rw [hbr] at hbr2
              simp at hbr2
        · rfl
    show List.foldl (visitLayer bounds) [] (l :: layers) = getVisibleUFs bounds layers
    rw [List.foldl_cons, hstep]
    rfl

/-- Witness for C9: a viewport together with one intersecting São Paulo
sublayer (code 35), one sublayer whose getBounds throws, one with a
bogus code 99, and one with no feature data; only 35 is returned, and
dropping the throwing sublayer does not change the result. -/
theorem getVisibleUFs_spec_witness :
    (35 : Int) ∈ UF_IDS ∧
    getVisibleUFs ⟨-30, 0, -60, -30⟩
      (⟨some ⟨35⟩, true, Except.ok ⟨-25, -19, -53, -44⟩⟩ ::
       ⟨some ⟨12⟩, true, Except.error ()⟩ ::
       ⟨some ⟨99⟩, true, Except.ok ⟨-25, -19, -53, -44⟩⟩ ::
       ⟨none, true, Except.ok ⟨-25, -19, -53, -44⟩⟩ :: []) = [35] ∧
    getVisibleUFs ⟨-30, 0, -60, -30⟩
      (⟨some ⟨12⟩, true, Except.error ()⟩ :: []) = getVisibleUFs ⟨-30, 0, -60, -30⟩ [] := by
  refine ⟨?_, by decide, ?_⟩
  · have h := getVisibleUFs_spec.1 ⟨-30, 0, -60, -30⟩
      (⟨some ⟨35⟩, true, Except.ok ⟨-25, -19, -53, -44⟩⟩ :: [])
      35 (by decide)
    exact h.1
  · exact getVisibleUFs_spec.2 ⟨-30, 0, -60, -30⟩ []
      ⟨some ⟨12⟩, true, Except.error ()⟩ (Or.inr (Or.inr ⟨(), rfl⟩))

theorem overviewEntry_capital {α : Type} (cap : Capital) (res : Except Unit (List α)) :
    (overviewEntry cap res).capital = cap := by
  cases res <;> rfl

theorem filterMap_settled_ok {β γ : Type} (g : β → γ) :
    ∀ l : List β,
      ((l.map (fun x => (Except.ok (g x) : Except Unit γ))).filterMap
        (fun r => match r with | Except.ok v => some v | Except.error _ => none)) = l.map g := by
  intro l
  induction l with
  | nil => rfl
  | cons x rest ih =>
    simp only [List.map_cons, List.filterMap_cons, ih]

theorem fetchNationalOverview_eq {α : Type} (fr : Nat → Except Unit (List α)) :
    fetchNationalOverview fr = capitals.map (fun cap => overviewEntry cap (fr cap.geocode)) :=
  filterMap_settled_ok (fun cap => overviewEntry cap (fr cap.geocode)) capitals

/-- C10: for every per-capital fetch behaviour the national overview
resolves to exactly one entry per capital of the fixed 27-capital
table, in table order, no capital omitted; a capital whose fetch fails
gets latest = none and an empty data series, and a capital whose fetch
returns no records gets latest = none. -/
theorem fetchNationalOverview_spec {α : Type} :
    ∀ fr : Nat → Except Unit (List α),
      (fetchNationalOverview fr).map (fun e => e.capital) = capitals ∧
      (fetchNationalOverview fr).length = 27 ∧
      (∀ e ∈ fetchNationalOverview fr,
        fr e.capital.geocode = Except.error () → e.latest = none ∧ e.data = []) ∧
      (∀ e ∈ fetchNationalOverview fr,
        fr e.capital.geocode = Except.ok [] → e.latest = none) := by
  intro fr
  refine ⟨?_, ?_, ?_, ?_⟩
  · rw [fetchNationalOverview_eq, List.map_map]
    have hcomp : ((fun e : OverviewEntry α => e.capital) ∘
        fun cap => overviewEntry cap (fr cap.geocode)) = fun cap => cap := by
      funext cap
      exact overviewEntry_capital cap (fr cap.geocode)
    rw [hcomp]
    exact List.map_id' capitals
  · rw [fetchNationalOverview_eq, List.length_map]
    rfl
  · intro e he herr
    rw [fetchNationalOverview_eq] at he
    obtain ⟨cap, _, hce⟩ := List.mem_map.mp he
    subst hce
    rw [overviewEntry_capital] at herr
    rw [herr]
    exact ⟨rfl, rfl⟩
  · intro e he hok
    rw [fetchNationalOverview_eq] at he
    obtain ⟨cap, _, hce⟩ := List.mem_map.mp he
    subst hce
    rw [overviewEntry_capital] at hok
    rw [hok]
    rfl

/-- Witness for C10: with every fetch failing, the overview still has 27
entries and São Paulo's entry is present with an empty series and no
latest record. -/
theorem fetchNationalOverview_spec_witness :
    (fetchNationalOverview (fun _ => (Except.error () : Except Unit (List Nat)))).length = 27 ∧
    (⟨⟨"São Paulo", 3550308, "SP"⟩, [], none⟩ : OverviewEntry Nat) ∈
      fetchNationalOverview (fun _ => (Except.error () : Except Unit (List Nat))) ∧
    (⟨⟨"São Paulo", 3550308, "SP"⟩, [], none⟩ : OverviewEntry Nat).latest = none ∧
    (⟨⟨"São Paulo", 3550308, "SP"⟩, [], none⟩ : OverviewEntry Nat).data = [] := by
  have h := fetchNationalOverview_spec (fun _ => (Except.error () : Except Unit (List Nat)))
  have hmem : (⟨⟨"São Paulo", 3550308, "SP"⟩, [], none⟩ : OverviewEntry Nat) ∈
      fetchNationalOverview (fun _ => (Except.error () : Except Unit (List Nat))) := by
    rw [fetchNationalOverview_eq]
    exact List.mem_map.mpr ⟨⟨"São Paulo", 3550308, "SP"⟩, List.mem_cons_self _ _, rfl⟩
  exact ⟨h.2.1, hmem, h.2.2.1 _ hmem rfl⟩

theorem loadMunicipioLayerStart_skip (mc : Nat → Bool) (s : MapState) (uf : Nat)
    (h : UnitSettled mc s uf) : loadMunicipioLayerStart mc s uf = s := by
  unfold loadMunicipioLayerStart
  split
  · rfl
  · rename_i hno
    have hmc : mc uf = false := by
      rcases h with h1 | h2 | h3
      · exact absurd (Or.inl h1) hno
      · exact absurd (Or.inr h2) hno
      · exact h3
    rw [if_pos (by simp [hmc])]

theorem loadMunicipioLayerStart_loaded_eq (mc : Nat → Bool) (s : MapState) (uf : Nat) :
    (loadMunicipioLayerStart mc s uf).loadedMunicipioLayers = s.loadedMunicipioLayers := by
  unfold loadMunicipioLayerStart
  split
  · rfl
  · split
    · rfl
    · rfl

theorem loadMunicipioLayerStart_zoom_eq (mc : Nat → Bool) (s : MapState) (uf : Nat) :
    (loadMunicipioLayerStart mc s uf).zoom = s.zoom := by
  unfold loadMunicipioLayerStart
  split
  · rfl
  · split
    · rfl
    · rfl

theorem loadMunicipioLayerStart_loading_mono (mc : Nat → Bool) (s : MapState) (v uf : Nat)
    (h : uf ∈ s.loadingStates) : uf ∈ (loadMunicipioLayerStart mc s v).loadingStates := by
  unfold loadMunicipioLayerStart
  split
  · exact h
  · split
    · exact h
    · exact List.mem_cons_of_mem _ h

theorem loadMunicipioLayerStart_settled_self (mc : Nat → Bool) (s : MapState) (uf : Nat) :
    UnitSettled mc (loadMunicipioLayerStart mc s uf) uf := by
  unfold loadMunicipioLayerStart UnitSettled
  split
  · rename_i hcon
    rcases hcon with h1 | h2
    · exact Or.inl h1
    · exact Or.inr (Or.inl h2)
  · split
    · rename_i hmc
      exact Or.inr (Or.inr (Bool.eq_false_iff.mpr hmc))
    · exact Or.inr (Or.inl (List.mem_cons_self _ _))

theorem loadMunicipioLayerStart_settled_mono (mc : Nat → Bool) (s : MapState) (v uf : Nat)
    (h : UnitSettled mc s uf) : UnitSettled mc (loadMunicipioLayerStart mc s v) uf := by
  rcases h with h1 | h2 | h3
  · exact Or.inl (by rw [loadMunicipioLayerStart_loaded_eq]; exact h1)
  · exact Or.inr (Or.inl (loadMunicipioLayerStart_loading_mono mc s v uf h2))
  · exact Or.inr (Or.inr h3)

theorem foldl_start_zoom_eq (mc : Nat → Bool) :
    ∀ (l : List Nat) (s : MapState),
      (l.foldl (loadMunicipioLayerStart mc) s).zoom = s.zoom := by
  intro l
  induction l with
  | nil => intro s; rfl
  | cons v rest ih =>
    intro s
    rw [List.foldl_cons, ih, loadMunicipioLayerStart_zoom_eq]

theorem foldl_start_settled_mono (mc : Nat → Bool) :
    ∀ (l : List Nat) (s : MapState) (uf : Nat), UnitSettled mc s uf →
      UnitSettled mc (l.foldl (loadMunicipioLayerStart mc) s) uf := by
  intro l
  induction l with
  | nil => intro s uf h; exact h
  | cons v rest ih =>
    intro s uf h
    exact ih _ uf (loadMunicipioLayerStart_settled_mono mc s v uf h)

theorem foldl_start_covers (mc : Nat → Bool) :
    ∀ (l : List Nat) (s : MapState) (uf : Nat), uf ∈ l →
      UnitSettled mc (l.foldl (loadMunicipioLayerStart mc) s) uf := by
  intro l
  induction l with
  | nil =>
    intro s uf h
    exact absurd h (List.not_mem_nil uf)
  | cons v rest ih =>
    intro s uf h
    rcases List.mem_cons.mp h with rfl | hmem
    · exact foldl_start_settled_mono mc rest _ uf
        (loadMunicipioLayerStart_settled_self mc s uf)
    · exact ih _ uf hmem

theorem foldl_start_id (mc : Nat → Bool) :
    ∀ (l : List Nat) (s : MapState), (∀ uf ∈ l, UnitSettled mc s uf) →
      l.foldl (loadMunicipioLayerStart mc) s = s := by
  intro l
  induction l with
  | nil => intro s _; rfl
  | cons v rest ih =>
    intro s h
    rw [List.foldl_cons, loadMunicipioLayerStart_skip mc s v (h v (List.mem_cons_self _ _))]
    exact ih s (fun uf huf => h uf (List.mem_cons_of_mem _ huf))

theorem start_preserves_disjoint (mc : Nat → Bool) (s : MapState) (uf : Nat)
    (h : DisjointInv s) : DisjointInv (loadMunicipioLayerStart mc s uf) := by
  unfold loadMunicipioLayerStart
  split
  · exact h
  · rename_i hcon
    split
    · exact h
    · intro v hv
      rcases List.mem_cons.mp hv with rfl | hv'
      · cases hlk : assocLookup v s.loadedMunicipioLayers with
        | none => rfl
        | some w => exact absurd (Or.inl (by rw [hlk]; rfl)) hcon
      · exact h v hv'

theorem foldl_start_preserves_disjoint (mc : Nat → Bool) :
    ∀ (l : List Nat) (s : MapState), DisjointInv s →
      DisjointInv (l.foldl (loadMunicipioLayerStart mc) s) := by
  intro l
  induction l with
  | nil => intro s h; exact h
  | cons v rest ih =>
    intro s h
    exact ih _ (start_preserves_disjoint mc s v h)

theorem removeMunicipioLayers_disjoint (s : MapState) :
    DisjointInv (removeMunicipioLayers s) := by
  intro uf _
  rfl

theorem handleZoomChange_preserves_disjoint (mc : Nat → Bool) (visible : List Nat)
    (s : MapState) (h : DisjointInv s) :
    DisjointInv (handleZoomChange mc visible s) := by
  unfold handleZoomChange
  split
  · exact foldl_start_preserves_disjoint mc visible s h
  · exact removeMunicipioLayers_disjoint s

theorem complete_preserves_disjoint (p : Nat × String) (ok : Bool) (s : MapState)
    (h : DisjointInv s) : DisjointInv (loadMunicipioLayerComplete p ok s) := by
  unfold loadMunicipioLayerComplete
  split
  · intro v hv
    have hv' := List.mem_filter.mp hv
    have hne : v ≠ p.1 := by simpa using hv'.2
    rw [assocLookup_set_ne p.1 v p.2 _ hne]
    exact h v hv'.1
  · intro v hv
    exact h v (List.mem_filter.mp hv).1

theorem clearForDisease_disjoint (d : String) (s : MapState) :
    DisjointInv (clearForDisease d s) := by
  intro uf _
  rfl

theorem setMapDisease_preserves_disjoint (mc : Nat → Bool) (d : String) (visible : List Nat)
    (s : MapState) : DisjointInv (setMapDisease mc d visible s) := by
  unfold setMapDisease
  split
  · exact handleZoomChange_preserves_disjoint mc visible _ (clearForDisease_disjoint d s)
  · exact clearForDisease_disjoint d s

/-- C2: in every reachable state (the observable points between event-loop
turns) the loading set and the loaded-layer table are disjoint: a unit
in loadingStates has no entry in loadedMunicipioLayers. -/
theorem loading_loaded_disjoint (mc : Nat → Bool) (s : MapState) (h : Reachable mc s) :
    ∀ uf ∈ s.loadingStates, assocLookup uf s.loadedMunicipioLayers = none := by
  induction h with
  | init =>
    intro uf huf
    exact absurd huf (List.not_mem_nil uf)
  | step _ hs ih =>
    cases hs with
    | viewport z visible => exact handleZoomChange_preserves_disjoint mc visible _ ih
    | settle p ok hp => exact complete_preserves_disjoint p ok _ ih
    | disease d visible => exact setMapDisease_preserves_disjoint mc d visible _

/-- Witness for C2: after one zoom-in evaluation over São Paulo (code 35)
the unit is mid-fetch, and the theorem instantiated at that reachable
state yields that it has no loaded layer. -/
theorem loading_loaded_disjoint_witness :
    35 ∈ (handleZoomChange (fun _ => true) [35]
      { initMapState with zoom := 7 }).loadingStates ∧
    assocLookup 35 (handleZoomChange (fun _ => true) [35]
      { initMapState with zoom := 7 }).loadedMunicipioLayers = none := by
  have hreach : Reachable (fun _ => true)
      (handleZoomChange (fun _ => true) [35] { initMapState with zoom := 7 }) :=
    Reachable.step Reachable.init (Step.viewport initMapState 7 [35])
  have hmem : 35 ∈ (handleZoomChange (fun _ => true) [35]
      { initMapState with zoom := 7 }).loadingStates := by decide
  exact ⟨hmem, loading_loaded_disjoint (fun _ => true) _ hreach 35 hmem⟩

/-- C4: re-running the visibility evaluation on an unchanged state is the
identity — the second run issues no fetch (the pending list, loading set
and every other component are unchanged) — and a unit that is already
loaded or already loading is skipped without starting a fetch. -/
theorem visibility_evaluation_idempotent (mc : Nat → Bool) (visible : List Nat)
    (s : MapState) :
    (∀ uf : Nat, (assocLookup uf s.loadedMunicipioLayers).isSome ∨ uf ∈ s.loadingStates →
      loadMunicipioLayerStart mc s uf = s) ∧
    handleZoomChange mc visible (handleZoomChange mc visible s) =
      handleZoomChange mc visible s := by
  constructor
  · intro uf h
    refine loadMunicipioLayerStart_skip mc s uf ?_
    rcases h with h1 | h2
    · exact Or.inl h1
    · exact Or.inr (Or.inl h2)
  · by_cases hz : MUNICIPIO_ZOOM_THRESHOLD ≤ s.zoom
    · have hinner : handleZoomChange mc visible s =
          visible.foldl (loadMunicipioLayerStart mc) s := by
        unfold handleZoomChange
        rw [if_pos hz]
      rw [hinner]
      have hz1 : MUNICIPIO_ZOOM_THRESHOLD ≤
          (visible.foldl (loadMunicipioLayerStart mc) s).zoom := by
        rw [foldl_start_zoom_eq]
        exact hz
      unfold handleZoomChange
      rw [if_pos hz1]
      exact foldl_start_id mc visible _ (fun uf huf => foldl_start_covers mc visible s uf huf)
    · have hinner : handleZoomChange mc visible s = removeMunicipioLayers s := by
        unfold handleZoomChange
        rw [if_neg hz]
      rw [hinner]
      unfold handleZoomChange
      rw [if_neg (by simpa [removeMunicipioLayers] using hz)]
      rfl

/-- Witness for C4: a state with São Paulo already loaded is left exactly
as it is by the synchronous prefix, and a double evaluation from the
initial state equals a single one. -/
theorem visibility_evaluation_idempotent_witness :
    loadMunicipioLayerStart (fun _ => true)
        ⟨"dengue", 7, [(35, "dengue")], [], [], []⟩ 35 =
      ⟨"dengue", 7, [(35, "dengue")], [], [], []⟩ ∧
    handleZoomChange (fun _ => true) [35]
        (handleZoomChange (fun _ => true) [35] initMapState) =
      handleZoomChange (fun _ => true) [35] initMapState :=
  ⟨(visibility_evaluation_idempotent (fun _ => true) [35]
      ⟨"dengue", 7, [(35, "dengue")], [], [], []⟩).1 35 (Or.inl (by decide)),
   (visibility_evaluation_idempotent (fun _ => true) [35] initMapState).2⟩

/-- C3 counterexample: load São Paulo's layer at zoom 7, then zoom out to
4: the teardown reaches a state whose loaded-layer table is empty but
whose municipality alert cache still holds the entry of the previously
loaded unit 35 — the cache is not invalidated on zoom-out, contradicting
the claim. -/
theorem zoomout_leaves_alert_cache :
    Reachable (fun _ => true)
      (handleZoomChange (fun _ => true) []
        ({ loadMunicipioLayerComplete (35, "dengue") true
            (handleZoomChange (fun _ => true) [35]
              { initMapState with zoom := 7 }) with zoom := 4 })) ∧
    (handleZoomChange (fun _ => true) []
      ({ loadMunicipioLayerComplete (35, "dengue") true
          (handleZoomChange (fun _ => true) [35]
            { initMapState with zoom := 7 }) with zoom := 4 })).loadedMunicipioLayers = [] ∧
    assocLookup 35 (handleZoomChange (fun _ => true) []
      ({ loadMunicipioLayerComplete (35, "dengue") true
          (handleZoomChange (fun _ => true) [35]
            { initMapState with zoom := 7 }) with zoom := 4 })).municipioAlertCache =
      some "dengue" := by
  refine ⟨?_, by decide, by decide⟩
  have h1 : Reachable (fun _ => true)
      (handleZoomChange (fun _ => true) [35] { initMapState with zoom := 7 }) :=
    Reachable.step Reachable.init (Step.viewport initMapState 7 [35])
  have h2 : Reachable (fun _ => true)
      (loadMunicipioLayerComplete (35, "dengue") true
        (handleZoomChange (fun _ => true) [35] { initMapState with zoom := 7 })) :=
    Reachable.step h1 (Step.settle _ (35, "dengue") true (by decide))
  exact Reachable.step h2 (Step.viewport _ 4 [])

/-- C3 (amended): the zoom-out teardown empties the loaded-layer table but
leaves the municipality alert cache exactly as it was; alert-cache
entries of loaded units are deleted only by a disease switch. -/
theorem zoomout_teardown_amended (mc : Nat → Bool) (visible : List Nat) (s : MapState)
    (hz : s.zoom < MUNICIPIO_ZOOM_THRESHOLD) :
    (handleZoomChange mc visible s).loadedMunicipioLayers = [] ∧
    (handleZoomChange mc visible s).municipioAlertCache = s.municipioAlertCache ∧
    (setMapDisease mc "zika" visible s).municipioAlertCache =
      s.municipioAlertCache.filter
        (fun kv => decide ((assocLookup kv.1 s.loadedMunicipioLayers) = none)) := by
  have hz' : ¬ MUNICIPIO_ZOOM_THRESHOLD ≤ s.zoom := not_le.mpr hz
  refine ⟨?_, ?_, ?_⟩
  · unfold handleZoomChange
    rw [if_neg hz']
    rfl
  · unfold handleZoomChange
    rw [if_neg hz']
    rfl
  · unfold setMapDisease
    rw [if_neg (by simpa [clearForDisease] using hz')]
    rfl

/-- Witness for C3's amended theorem: at zoom 4 with unit 35 loaded and
cached, teardown empties the layer table, keeps the cache, and a disease
switch drops the loaded unit's cache entry. -/
theorem zoomout_teardown_amended_witness :
    (handleZoomChange (fun _ => true) []
      ⟨"dengue", 4, [(35, "dengue")], [], [(35, "dengue")], []⟩).loadedMunicipioLayers = [] ∧
    (handleZoomChange (fun _ => true) []
      ⟨"dengue", 4, [(35, "dengue")], [], [(35, "dengue")], []⟩).municipioAlertCache =
      [(35, "dengue")] ∧
    (setMapDisease (fun _ => true) "zika" []
      ⟨"dengue", 4, [(35, "dengue")], [], [(35, "dengue")], []⟩).municipioAlertCache = [] := by
  have h := zoomout_teardown_amended (fun _ => true) []
    ⟨"dengue", 4, [(35, "dengue")], [], [(35, "dengue")], []⟩ (by decide)
  refine ⟨h.1, h.2.1, ?_⟩
  rw [h.2.2]
  decide

/-- C1: the code violates this claim: with São Paulo's municipal fetch
issued under dengue and the disease switched to zika while it is in
flight, the resolution still installs the dengue-styled layer and the
dengue alert-cache entry — the reachable state displays a layer styled
from the pre-switch disease while zika is active, instead of discarding
the stale result. -/
theorem stale_fetch_committed_after_disease_switch :
    Reachable (fun _ => true)
      (loadMunicipioLayerComplete (35, "dengue") true
        (setMapDisease (fun _ => true) "zika" [35]
          (handleZoomChange (fun _ => true) [35] { initMapState with zoom := 7 }))) ∧
    (loadMunicipioLayerComplete (35, "dengue") true
      (setMapDisease (fun _ => true) "zika" [35]
        (handleZoomChange (fun _ => true) [35]
          { initMapState with zoom := 7 }))).currentDisease = "zika" ∧
    assocLookup 35 (loadMunicipioLayerComplete (35, "dengue") true
      (setMapDisease (fun _ => true) "zika" [35]
        (handleZoomChange (fun _ => true) [35]
          { initMapState with zoom := 7 }))).loadedMunicipioLayers = some "dengue" ∧
    assocLookup 35 (loadMunicipioLayerComplete (35, "dengue") true
      (setMapDisease (fun _ => true) "zika" [35]
        (handleZoomChange (fun _ => true) [35]
          { initMapState with zoom := 7 }))).municipioAlertCache = some "dengue" := by
  refine ⟨?_, by decide, by decide, by decide⟩
  have h1 : Reachable (fun _ => true)
      (handleZoomChange (fun _ => true) [35] { initMapState with zoom := 7 }) :=
    Reachable.step Reachable.init (Step.viewport initMapState 7 [35])
  have h2 : Reachable (fun _ => true)
      (setMapDisease (fun _ => true) "zika" [35]
        (handleZoomChange (fun _ => true) [35] { initMapState with zoom := 7 })) :=
    Reachable.step h1 (Step.disease _ "zika" [35])
  exact Reachable.step h2 (Step.settle _ (35, "dengue") true (by decide))
